import Mathlib

/-!
# Verification of `scripts/discussions.js` (dev-context repository)

A shallow embedding, in Lean 4, of the GitHub Discussions CLI utility
`scripts/discussions.js`, covering the argument parser, the action handlers
(list, create, list-comments) and the GraphQL transport, together with
theorems settling the frozen specification claims about them.

Modelling conventions:
* JavaScript exceptions become `Except String` results; the thrown message is
  the `.error` payload.
* JavaScript `undefined` / absent object fields become `Option`; the parser
  writes `opts.answered = undefined` for `--answered any`, which is
  observationally identical to never setting the field (the only consumer
  tests `typeof options.answered === 'boolean'`), so both are `none`.
* Machine numbers become `Int`.  `Number.parseInt(v, 10)` is embedded exactly
  (leading-whitespace skip, optional sign, longest digit prefix, `NaN` when no
  digit); it never yields `±Infinity`, so subsequent `Number.isFinite` checks
  on successfully parsed flags are always true.  (JavaScript float precision
  on astronomically long digit strings is idealised away: values are exact.)
* Network responses are passed to the handler models as explicit arguments:
  a handler is a pure function of the parsed options and of the sequence of
  responses the remote API would serve.  Handlers that issue requests also
  return the number of requests issued, so that "no request is made" claims
  are statable.
-/

namespace Discussions

/-- The `FLAG_NAMES` set of `discussions.js` (lines 5–24): every recognised
flag token.  `takeValue` refuses to consume one of these as a flag value. -/
def FLAG_NAMES : List String :=
  ["--token", "--owner", "--repo", "--list", "--list-categories", "--limit",
   "--get", "--create", "--comment", "--list-comments", "--title", "--body",
   "--category-id", "--reply-to", "--answered", "--state", "--format", "--help"]

/-- The parsed `opts` object built by `parseArgs`.  Fields that JavaScript
leaves `undefined` until assigned are `Option`; `format` is initialised to
`"json"` (line 81: `const opts = { format: 'json' }`). -/
structure Options where
  format : String := "json"
  token : Option String := none
  owner : Option String := none
  repo : Option String := none
  action : Option String := none
  limit : Option Int := none
  number : Option Int := none
  title : Option String := none
  body : Option String := none
  categoryId : Option String := none
  replyToId : Option String := none
  answered : Option Bool := none
  states : Option (List String) := none
  deriving Repr, DecidableEq

/-- `takeValue(list, index, flag)` (lines 64–70): the token after the current
flag, required to exist and not to be a registered flag name.  We pass the
list suffix after the current flag instead of an index. -/
def takeValue (rest : List String) (flag : String) : Except String String :=
  match rest with
  | [] => .error (flag ++ " requires a value")
  | v :: _ =>
    if FLAG_NAMES.contains v then .error (flag ++ " requires a value")
    else .ok v

/-- JavaScript string whitespace skipped by `Number.parseInt` (ASCII part). -/
def jsIsSpace (c : Char) : Bool :=
  c = ' ' || c = '\t' || c = '\n' || c = '\r' || c = '\x0b' || c = '\x0c'

/-- Numeric value of a (non-empty) list of decimal digit characters. -/
def digitsVal (cs : List Char) : Nat :=
  cs.foldl (fun a c => a * 10 + (c.toNat - '0'.toNat)) 0

/-- `Number.parseInt(value, 10)`: skip leading whitespace, read an optional
sign, then the longest prefix of decimal digits; `none` (JavaScript `NaN`)
when that prefix is empty. -/
def jsParseInt10 (s : String) : Option Int :=
  let cs := s.data.dropWhile jsIsSpace
  let signAndRest : Int × List Char :=
    match cs with
    | '-' :: t => (-1, t)
    | '+' :: t => (1, t)
    | _ => (1, cs)
  let digits := signAndRest.2.takeWhile (fun c => '0' ≤ c && c ≤ '9')
  if digits.isEmpty then none
  else some (signAndRest.1 * (digitsVal digits : Int))

/-- `parseInteger(value, flag)` (lines 72–78). -/
def parseInteger (value flag : String) : Except String Int :=
  match jsParseInt10 value with
  | none => .error (flag ++ " requires an integer value")
  | some n => .ok n

/-- `ensureSingleAction(existing, next)` (lines 185–190). -/
def ensureSingleAction (existing : Option String) (next : String) :
    Except String String :=
  match existing with
  | some e =>
    if e ≠ next then
      .error ("Multiple actions specified (" ++ e ++ " and " ++ next ++
        "). Please choose one.")
    else .ok next
  | none => .ok next

/-- JavaScript `String.prototype.toUpperCase` (on the ASCII range relevant
here), as a character-wise map. -/
def jsToUpper (s : String) : String := ⟨s.data.map Char.toUpper⟩

/-- JavaScript `String.prototype.toLowerCase` (on the ASCII range relevant
here), as a character-wise map. -/
def jsToLower (s : String) : String := ⟨s.data.map Char.toLower⟩

/-- Legal values of `--answered` (line 146), already lower-cased. -/
def answeredValues : List String := ["answered", "unanswered", "true", "false", "any"]

/-- The loop body of `parseArgs` (lines 80–183), one recursive step per loop
iteration.  A flag that consumes a value recurses on the list after its value
token (the JS `i += 1` after reading `list[i + 1]`); a bare action flag
recurses on the remaining list.  So that the recursion is structural (and the
function kernel-evaluable), the body of `takeValue` is inlined at each use
site; `takeValue_nil`/`takeValue_cons` below record the correspondence.
The `--help` flag is intercepted before `parseArgs` in the script (line 59),
so inside the loop it falls through to `Unknown argument` like any token
without a `case`. -/
def parseArgsLoop : List String → Options → Except String Options
  | [], opts => .ok opts
  | arg :: rest, opts =>
    if arg = "--token" then
      match rest with
      | [] => .error "--token requires a value"
      | v :: rest' =>
        if FLAG_NAMES.contains v then .error "--token requires a value"
        else parseArgsLoop rest' { opts with token := some v }
    else if arg = "--owner" then
      match rest with
      | [] => .error "--owner requires a value"
      | v :: rest' =>
        if FLAG_NAMES.contains v then .error "--owner requires a value"
        else parseArgsLoop rest' { opts with owner := some v }
    else if arg = "--repo" then
      match rest with
      | [] => .error "--repo requires a value"
      | v :: rest' =>
        if FLAG_NAMES.contains v then .error "--repo requires a value"
        else parseArgsLoop rest' { opts with repo := some v }
    else if arg = "--list" then
      match ensureSingleAction opts.action "list" with
      | .error e => .error e
      | .ok a => parseArgsLoop rest { opts with action := some a }
    else if arg = "--list-categories" then
      match ensureSingleAction opts.action "listCategories" with
      | .error e => .error e
      | .ok a => parseArgsLoop rest { opts with action := some a }
    else if arg = "--limit" then
      match rest with
      | [] => .error "--limit requires a value"
      | v :: rest' =>
        if FLAG_NAMES.contains v then .error "--limit requires a value"
        else
          match parseInteger v "--limit" with
          | .error e => .error e
          | .ok n =>
            if n ≤ 0 then .error "--limit requires a positive integer"
            else parseArgsLoop rest' { opts with limit := some n }
    else if arg = "--get" then
      match ensureSingleAction opts.action "get" with
      | .error e => .error e
      | .ok a =>
        match rest with
        | [] => .error "--get requires a value"
        | v :: rest' =>
          if FLAG_NAMES.contains v then .error "--get requires a value"
          else
            match parseInteger v "--get" with
            | .error e => .error e
            | .ok n =>
              parseArgsLoop rest' { opts with action := some a, number := some n }
    else if arg = "--create" then
      match ensureSingleAction opts.action "create" with
      | .error e => .error e
      | .ok a => parseArgsLoop rest { opts with action := some a }
    else if arg = "--comment" then
      match ensureSingleAction opts.action "comment" with
      | .error e => .error e
      | .ok a =>
        match rest with
        | [] => .error "--comment requires a value"
        | v :: rest' =>
          if FLAG_NAMES.contains v then .error "--comment requires a value"
          else
            match parseInteger v "--comment" with
            | .error e => .error e
            | .ok n =>
              parseArgsLoop rest' { opts with action := some a, number := some n }
    else if arg = "--list-comments" then
      match ensureSingleAction opts.action "listComments" with
      | .error e => .error e
      | .ok a =>
        match rest with
        | [] => .error "--list-comments requires a value"
        | v :: rest' =>
          if FLAG_NAMES.contains v then .error "--list-comments requires a value"
          else
            match parseInteger v "--list-comments" with
            | .error e => .error e
            | .ok n =>
              parseArgsLoop rest' { opts with action := some a, number := some n }
    else if arg = "--title" then
      match rest with
      | [] => .error "--title requires a value"
      | v :: rest' =>
        if FLAG_NAMES.contains v then .error "--title requires a value"
        else parseArgsLoop rest' { opts with title := some v }
    else if arg = "--body" then
      match rest with
      | [] => .error "--body requires a value"
      | v :: rest' =>
        if FLAG_NAMES.contains v then .error "--body requires a value"
        else parseArgsLoop rest' { opts with body := some v }
    else if arg = "--category-id" then
      match rest with
      | [] => .error "--category-id requires a value"
      | v :: rest' =>
        if FLAG_NAMES.contains v then .error "--category-id requires a value"
        else parseArgsLoop rest' { opts with categoryId := some v }
    else if arg = "--reply-to" then
      match rest with
      | [] => .error "--reply-to requires a value"
      | v :: rest' =>
        if FLAG_NAMES.contains v then .error "--reply-to requires a value"
        else parseArgsLoop rest' { opts with replyToId := some v }
    else if arg = "--answered" then
      match rest with
      | [] => .error "--answered requires a value"
      | v :: rest' =>
        if FLAG_NAMES.contains v then .error "--answered requires a value"
        else
          let lv := jsToLower v
          if answeredValues.contains lv then
            parseArgsLoop rest'
              { opts with
                answered := if lv = "any" then none
                  else some (lv = "answered" || lv = "true") }
          else
            .error "--answered must be one of answered, unanswered, true, false, or any"
    else if arg = "--state" then
      match rest with
      | [] => .error "--state requires a value"
      | v :: rest' =>
        if FLAG_NAMES.contains v then .error "--state requires a value"
        else
          let uv := jsToUpper v
          if uv = "OPEN" ∨ uv = "CLOSED" then
            let st := opts.states.getD []
            parseArgsLoop rest'
              { opts with states := some (if st.contains uv then st else st ++ [uv]) }
          else
            .error "--state must be open or closed"
    else if arg = "--format" then
      match rest with
      | [] => .error "--format requires a value"
      | v :: rest' =>
        if FLAG_NAMES.contains v then .error "--format requires a value"
        else
          let lv := jsToLower v
          if lv = "json" ∨ lv = "text" then
            parseArgsLoop rest' { opts with format := lv }
          else
            .error ("Unsupported --format value: " ++ lv)
    else
      .error ("Unknown argument: " ++ arg)

/-- `parseArgs(list)` (lines 80–183): run the loop from `{ format: 'json' }`. -/
def parseArgs (args : List String) : Except String Options :=
  parseArgsLoop args {}

instance {ε α : Type _} [DecidableEq ε] [DecidableEq α] : DecidableEq (Except ε α) :=
  fun a b =>
    match a, b with
    | .error e, .error f =>
      if h : e = f then isTrue (by rw [h])
      else isFalse (by simp [h])
    | .ok x, .ok y =>
      if h : x = y then isTrue (by rw [h])
      else isFalse (by simp [h])
    | .error _, .ok _ => isFalse (by simp)
    | .ok _, .error _ => isFalse (by simp)

/-- JavaScript truthiness of an optional string value (`if (options.title)`,
`if (options.categoryId)`, …): false for an absent field and for `""`. -/
def strTruthy : Option String → Bool
  | none => false
  | some s => !s.isEmpty

/-- `main` (lines 192–248) dispatches to a handler — the only code that
performs network requests — only when `parseArgs` succeeds, switching on
`options.action`; on a parse error it prints the message and exits before any
dispatch.  `none` therefore means "no handler is invoked, hence no network
request is issued by an action handler". -/
def dispatchedAction (args : List String) : Option String :=
  match parseArgs args with
  | .error _ => none
  | .ok o => o.action

/-! ## GraphQL transport (`requestGraphQL`, lines 250–268) -/

/-- The JSON payload of a GraphQL response, generic in the shape `α` of its
`data` field: `data` may be absent/null, and `errors` is `some es` exactly
when the payload carries a top-level `errors` array (a present array — even
an empty one — is truthy in JavaScript; an absent or `null` field is falsy,
which is what `payload.errors` tests). -/
structure GraphQLPayload (α : Type) where
  data : Option α
  errors : Option (List String)
  deriving Repr, DecidableEq

/-- An HTTP response to the GraphQL POST: `ok` is `response.ok`
(success status), `payload` the parsed JSON body. -/
structure GraphQLResponse (α : Type) where
  ok : Bool
  payload : GraphQLPayload α
  deriving Repr, DecidableEq

/-- The error thrown by `requestGraphQL`: message plus the attached
`responseBody` (the full parsed payload). -/
structure GraphQLError (α : Type) where
  message : String
  responseBody : GraphQLPayload α
  deriving Repr, DecidableEq

/-- `requestGraphQL` (lines 250–268), as a function of the response the
endpooint returns: fails when the HTTP status is not ok or the payload has a
(truthy) top-level `errors` field, attaching the full payload; otherwise
returns `payload.data`. -/
def requestGraphQL {α : Type} (r : GraphQLResponse α) :
    Except (GraphQLError α) (Option α) :=
  if !r.ok || r.payload.errors.isSome then
    .error { message := "GitHub GraphQL API request failed",
             responseBody := r.payload }
  else
    .ok r.payload.data

/-! ## `handleList` (lines 304–355) -/

/-- The `category { id name }` sub-object of a discussion node. -/
structure DiscussionCategory where
  id : String
  name : String
  deriving Repr, DecidableEq

/-- The `author { login }` sub-object of a discussion node. -/
structure DiscussionAuthor where
  login : String
  deriving Repr, DecidableEq

/-- One node of `repository.discussions.nodes` as requested by the
`handleList` query (lines 316–327); fields the API may return as null are
`Option`. -/
structure DiscussionNode where
  id : String
  number : Int
  title : String
  createdAt : String
  url : String
  answerChosenAt : Option String
  isAnswered : Option Bool
  closed : Bool
  category : Option DiscussionCategory
  author : Option DiscussionAuthor
  deriving Repr, DecidableEq

/-- An output element of `handleList`: the spread `{...node, state}` of
line 350–353 — every field of the node unchanged, plus the derived `state`. -/
structure DiscussionSummary extends DiscussionNode where
  state : String
  deriving Repr, DecidableEq

/-- The `variables` object built by `handleList` (lines 333–346):
`first` defaults to 20 unless a finite positive `limit` was parsed;
`categoryId` only when truthy; `answered` only when boolean; `states` only
when present and non-empty. -/
structure ListVariables where
  owner : Option String
  name : Option String
  first : Int
  categoryId : Option String := none
  answered : Option Bool := none
  states : Option (List String) := none
  deriving Repr, DecidableEq

/-- Lines 305 and 333–346 of `handleList`. -/
def buildListVariables (o : Options) : ListVariables :=
  { owner := o.owner
    name := o.repo
    first := match o.limit with
      | some l => if 0 < l then l else 20
      | none => 20
    categoryId := if strTruthy o.categoryId then o.categoryId else none
    answered := o.answered
    states := match o.states with
      | some ss => if 0 < ss.length then some ss else none
      | none => none }

/-- Lines 350–353 of `handleList`: map each node of the response
(`data?.repository?.discussions?.nodes ?? []`, where `none` stands for a
missing path) to its summary with the derived `state` field. -/
def handleListNodes (resp : Option (List DiscussionNode)) :
    List DiscussionSummary :=
  (resp.getD []).map fun node =>
    { toDiscussionNode := node
      state := if node.closed then "CLOSED" else "OPEN" }

/-- `handleList` (lines 304–355) as a pure function of the parsed options and
of the node list the GraphQL response carries: the variables sent with the
single query, and the output array. -/
def handleListModel (o : Options) (resp : Option (List DiscussionNode)) :
    ListVariables × List DiscussionSummary :=
  (buildListVariables o, handleListNodes resp)

/-! ## `handleCreate` (lines 401–439) -/

/-- The `{id, number, title, url}` of a created discussion (lines 421–426). -/
structure CreatedDiscussion where
  id : String
  number : Int
  title : String
  url : String
  deriving Repr, DecidableEq

/-- The responses the two `handleCreate` requests would receive:
`repositoryId` is `data?.repository?.id` of the lookup query (lines 480–495,
`none` when absent) and `created` is `data?.createDiscussion?.discussion` of
the mutation (lines 431–438). -/
structure CreateEnv where
  repositoryId : Option String
  created : Option CreatedDiscussion
  deriving Repr, DecidableEq

/-- `handleCreate` (lines 401–439) as a pure function of options and of the
remote responses, also returning how many requests were issued.  The three
required-field checks (`if (!options.title)` … truthiness, so `""` counts as
missing) run before the first request; `getRepositoryId` is the first
request, the `createDiscussion` mutation the second. -/
def handleCreate (o : Options) (env : CreateEnv) :
    Except String (Option CreatedDiscussion) × Nat :=
  if !strTruthy o.title then
    (.error "--create requires --title", 0)
  else if !strTruthy o.body then
    (.error "--create requires --body", 0)
  else if !strTruthy o.categoryId then
    (.error "--create requires --category-id", 0)
  else
    match env.repositoryId with
    | none => (.error "Unable to resolve repository ID for createDiscussion.", 1)
    | some _ => (.ok env.created, 2)

/-! ## `handleListComments` (lines 519–606) -/

/-- One node of `discussion.comments.nodes` as requested by the
`handleListComments` query (lines 533–542). -/
structure CommentNode where
  id : String
  url : String
  createdAt : String
  updatedAt : String
  isAnswer : Bool
  replyTo : Option String
  author : Option DiscussionAuthor
  body : String
  deriving Repr, DecidableEq

/-- `pageInfo { hasNextPage endCursor }` (lines 543–546). -/
structure PageInfo where
  hasNextPage : Bool
  endCursor : Option String
  deriving Repr, DecidableEq

/-- `comments(first: 100, after: $after)` connection of one response page. -/
structure CommentConnection where
  nodes : List CommentNode
  pageInfo : PageInfo
  deriving Repr, DecidableEq

/-- The `repository.discussion` object of one `handleListComments` response
page (lines 527–549). -/
structure DiscussionWithComments where
  id : String
  number : Int
  title : String
  url : String
  comments : CommentConnection
  deriving Repr, DecidableEq

/-- The `discussionSummary` captured from the first page (lines 571–578). -/
structure ListCommentsSummary where
  id : String
  number : Int
  title : String
  url : String
  deriving Repr, DecidableEq

/-- The value `handleListComments` outputs, instrumented with the number of
GraphQL requests the loop issued. -/
structure ListCommentsResult where
  discussion : ListCommentsSummary
  comments : List CommentNode
  requests : Nat
  deriving Repr, DecidableEq

/-- The `while (hasNextPage)` loop of `handleListComments` (lines 558–593),
consuming one remote response per iteration.  Each response is
`data?.repository?.discussion`: `none` (discussion missing) throws
`Discussion not found.`.  Per iteration: capture the summary if not yet
captured, append the page's nodes, then — when a finite positive limit is set
and the accumulated count has reached it — truncate to exactly the limit and
stop without reading `pageInfo`; otherwise stop when `hasNextPage` is false.
The `after` cursor bookkeeping is implicit here: the response list already
enumerates what each successive request returns.  An exhausted response list
(`[]` while the loop still wants a page) cannot arise with a real endpoint
and is mapped to a modelling-artifact error. -/
def listCommentsLoop (limit : Option Int) :
    List (Option DiscussionWithComments) → List CommentNode →
    Option ListCommentsSummary → Except String (ListCommentsSummary × List CommentNode × Nat)
  | [], _, _ => .error "[model] the response sequence is exhausted"
  | none :: _, _, _ => .error "Discussion not found."
  | some d :: rest, acc, summ =>
    let summ' := summ.getD { id := d.id, number := d.number, title := d.title, url := d.url }
    let acc' := acc ++ d.comments.nodes
    match limit with
    | some l =>
      if 0 < l ∧ l ≤ (acc'.length : Int) then
        .ok (summ', acc'.take l.toNat, 1)
      else if d.comments.pageInfo.hasNextPage then
        match listCommentsLoop (some l) rest acc' (some summ') with
        | .error e => .error e
        | .ok (s, cs, n) => .ok (s, cs, n + 1)
      else
        .ok (summ', acc', 1)
    | none =>
      if d.comments.pageInfo.hasNextPage then
        match listCommentsLoop none rest acc' (some summ') with
        | .error e => .error e
        | .ok (s, cs, n) => .ok (s, cs, n + 1)
      else
        .ok (summ', acc', 1)

/-- `handleListComments` (lines 519–606) as a pure function of options and of
the sequence of responses the API serves: requires a parsed discussion number
(`Number.isFinite(options.number)`), then runs the pagination loop.  The
post-loop `if (!discussionSummary)` re-check of line 595 is unreachable: the
loop always runs at least once and its body either throws or captures the
summary. -/
def handleListComments (o : Options)
    (responses : List (Option DiscussionWithComments)) :
    Except String ListCommentsResult :=
  if o.number.isNone then .error "--list-comments requires a discussion number"
  else
    match listCommentsLoop o.limit responses [] none with
    | .error e => .error e
    | .ok (s, cs, n) => .ok { discussion := s, comments := cs, requests := n }

/-- `takeValue` on an empty suffix: the flag was the last token. -/
theorem takeValue_nil (flag : String) :
    takeValue [] flag = .error (flag ++ " requires a value") := rfl

/-- `takeValue` on a non-empty suffix: the candidate value is rejected exactly
when it is itself a registered flag name.  (This is the logic inlined at each
value-consuming case of `parseArgsLoop`.) -/
theorem takeValue_cons (v : String) (r : List String) (flag : String) :
    takeValue (v :: r) flag =
      if FLAG_NAMES.contains v then .error (flag ++ " requires a value")
      else .ok v := rfl

/-! ## Sample data used by witnesses and counterexamples -/

/-- A concrete open discussion node. -/
def sampleOpenNode : DiscussionNode :=
  { id := "D_1", number := 1, title := "t", createdAt := "2024-01-01", url := "u",
    answerChosenAt := none, isAnswered := some false, closed := false,
    category := some { id := "C_1", name := "General" },
    author := some { login := "octocat" } }

/-- A concrete closed discussion node. -/
def sampleClosedNode : DiscussionNode :=
  { sampleOpenNode with id := "D_2", number := 2, closed := true }

/-- A concrete comment node (the shared fields are irrelevant to counting). -/
def sampleComment (i : Nat) : CommentNode :=
  { id := "DC_" ++ toString i, url := "cu", createdAt := "2024-01-02",
    updatedAt := "2024-01-02", isAnswer := false, replyTo := none,
    author := some { login := "octocat" }, body := "hi" }

/-! ## Theorems -/

/-- C2: every node of the list response is mapped to a summary whose `state`
is `"CLOSED"` exactly when the node's `closed` flag is true and `"OPEN"`
otherwise, all other fields passed through unchanged. -/
theorem claim_C2_list_state_derivation (nodes : List DiscussionNode) :
    (handleListNodes (some nodes)).length = nodes.length ∧
    ∀ i (hi : i < nodes.length) (hi' : i < (handleListNodes (some nodes)).length),
      ((handleListNodes (some nodes)).get ⟨i, hi'⟩).toDiscussionNode = nodes.get ⟨i, hi⟩ ∧
      (((handleListNodes (some nodes)).get ⟨i, hi'⟩).state = "CLOSED" ↔
        (nodes.get ⟨i, hi⟩).closed = true) ∧
      (((handleListNodes (some nodes)).get ⟨i, hi'⟩).state = "OPEN" ↔
        (nodes.get ⟨i, hi⟩).closed = false) := by
  refine ⟨by simp [handleListNodes], ?_⟩
  intro i hi hi'
  refine ⟨?_, ?_, ?_⟩ <;>
    simp only [handleListNodes, Option.getD_some, List.get_eq_getElem,
      List.getElem_map] <;>
    cases h : nodes[i].closed <;> simp

/-- C2 witness: on a concrete two-node response, the closed node yields
`state = "CLOSED"` and the open node `state = "OPEN"`, fields preserved. -/
theorem claim_C2_witness :
    ((handleListNodes (some [sampleOpenNode, sampleClosedNode])).get
        ⟨1, by decide⟩).toDiscussionNode = sampleClosedNode ∧
    ((handleListNodes (some [sampleOpenNode, sampleClosedNode])).get
        ⟨1, by decide⟩).state = "CLOSED" :=
  ⟨((claim_C2_list_state_derivation [sampleOpenNode, sampleClosedNode]).2 1
      (by decide) (by decide)).1,
   ((claim_C2_list_state_derivation [sampleOpenNode, sampleClosedNode]).2 1
      (by decide) (by decide)).2.1.mpr (by decide)⟩

/-- C5 counterexample: the claim quantifies over *every possible API
response*; `handleList` does not truncate locally, so a (contract-violating)
response carrying six nodes yields six output elements although
`--limit 5` was given. -/
theorem claim_C5_counterexample :
    (Options.mk "json" none none none (some "list") (some 5) none none none
        none none none none).limit = some 5 ∧
    (handleListModel
        (Options.mk "json" none none none (some "list") (some 5) none none none
          none none none none)
        (some [sampleOpenNode, sampleOpenNode, sampleOpenNode, sampleOpenNode,
               sampleOpenNode, sampleOpenNode])).2.length = 6 := by
  constructor <;> rfl

/-- C5 (amended): with `--limit 5` the handler requests `first = 5` in the
query variables and emits exactly one summary per response node, so the
output has at most 5 elements whenever the response honours the requested
page size; the handler itself performs no truncation. -/
theorem claim_C5_limit_via_first (o : Options) (resp : Option (List DiscussionNode))
    (h : o.limit = some 5) :
    (handleListModel o resp).1.first = 5 ∧
    (handleListModel o resp).2.length = (resp.getD []).length ∧
    ((resp.getD []).length ≤ 5 → (handleListModel o resp).2.length ≤ 5) := by
  refine ⟨?_, ?_, ?_⟩
  · simp [handleListModel, buildListVariables, h]
  · simp [handleListModel, handleListNodes]
  · intro hle; simpa [handleListModel, handleListNodes] using hle

/-- C5 witness: the amended statement at a concrete options value and a
concrete three-node response. -/
theorem claim_C5_witness :
    (handleListModel { limit := some 5 } (some [sampleOpenNode])).1.first = 5 ∧
    (handleListModel { limit := some 5 } (some [sampleOpenNode])).2.length = 1 :=
  ⟨(claim_C5_limit_via_first { limit := some 5 } (some [sampleOpenNode]) rfl).1,
   ((claim_C5_limit_via_first { limit := some 5 } (some [sampleOpenNode]) rfl).2.1.trans
      (by decide))⟩

/-- C6: `handleCreate` checks `title`, `body`, `categoryId` in that order
before issuing any request; each missing (falsy) field aborts with its own
message naming the field, with zero requests issued. -/
theorem claim_C6_create_required_fields (o : Options) (env : CreateEnv) :
    (strTruthy o.title = false →
      handleCreate o env = (.error "--create requires --title", 0)) ∧
    (strTruthy o.title = true → strTruthy o.body = false →
      handleCreate o env = (.error "--create requires --body", 0)) ∧
    (strTruthy o.title = true → strTruthy o.body = true → strTruthy o.categoryId = false →
      handleCreate o env = (.error "--create requires --category-id", 0)) := by
  refine ⟨fun h1 => ?_, fun h1 h2 => ?_, fun h1 h2 h3 => ?_⟩ <;>
    simp [handleCreate, *]

/-- C6 witness: `--create` with title and body but no `--category-id` fails
with the message naming `--category-id`, and zero requests are issued. -/
theorem claim_C6_witness :
    handleCreate { title := some "T", body := some "B" }
        { repositoryId := some "R_1", created := none } =
      (.error "--create requires --category-id", 0) :=
  (claim_C6_create_required_fields { title := some "T", body := some "B" }
    { repositoryId := some "R_1", created := none }).2.2 rfl rfl rfl

/-- C9: `requestGraphQL` fails exactly when the HTTP status is not ok or the
payload carries a top-level `errors` field; on failure the full response body
is attached to the error, and otherwise the payload's `data` is returned. -/
theorem claim_C9_transport_failure {α : Type} (r : GraphQLResponse α) :
    ((∃ e, requestGraphQL r = .error e) ↔
      (r.ok = false ∨ r.payload.errors.isSome = true)) ∧
    (∀ e, requestGraphQL r = .error e → e.responseBody = r.payload) ∧
    (r.ok = true → r.payload.errors = none →
      requestGraphQL r = .ok r.payload.data) := by
  refine ⟨?_, ?_, ?_⟩
  · cases hok : r.ok <;> cases herr : r.payload.errors <;>
      simp [requestGraphQL, hok, herr]
  · intro e he
    cases hok : r.ok <;> cases herr : r.payload.errors <;>
      simp [requestGraphQL, hok, herr] at he <;> simp [← he]
  · intro h1 h2; simp [requestGraphQL, h1, h2]

/-- C9 witness: a concrete ok response with no errors returns its data; a
concrete response with an `errors` array fails and carries the payload. -/
theorem claim_C9_witness :
    requestGraphQL (α := Nat) { ok := true, payload := { data := some 7, errors := none } } =
      .ok (some 7) ∧
    ∀ e, requestGraphQL (α := Nat)
        { ok := true, payload := { data := none, errors := some [] } } = .error e →
      e.responseBody = { data := none, errors := some [] } :=
  ⟨(claim_C9_transport_failure
      { ok := true, payload := { data := some 7, errors := none } }).2.2 rfl rfl,
   (claim_C9_transport_failure
      { ok := true, payload := { data := none, errors := some [] } }).2.1⟩

/-- C7: `--answered unanswered` and `--answered false` parse to the same
options with `answered = some false`, which `handleList` forwards as
`answered: false` in the query variables; `--answered any` clears the filter
(no `answered` variable); matching is case-insensitive (the parse depends
only on the lower-cased value) and any other value is a fatal parse error. -/
theorem claim_C7_answered_filter :
    (parseArgs ["--answered", "unanswered"] = parseArgs ["--answered", "false"] ∧
     parseArgs ["--answered", "unanswered"] = .ok { answered := some false } ∧
     (buildListVariables { answered := some false }).answered = some false) ∧
    (∀ o : Options, o.answered = some false →
      (buildListVariables o).answered = some false) ∧
    (parseArgs ["--answered", "true", "--answered", "any"] = .ok {} ∧
     (buildListVariables {}).answered = none) ∧
    (∀ v w : String, jsToLower v = jsToLower w → v ∉ FLAG_NAMES → w ∉ FLAG_NAMES →
      parseArgs ["--answered", v] = parseArgs ["--answered", w]) ∧
    (∀ v : String, v ∉ FLAG_NAMES → jsToLower v ∉ answeredValues →
      parseArgs ["--answered", v] =
        .error "--answered must be one of answered, unanswered, true, false, or any") := by
  refine ⟨⟨by decide, by decide, by decide⟩, ?_, ⟨by decide, by decide⟩, ?_, ?_⟩
  · intro o h; simp [buildListVariables, h]
  · intro v w hlow hv hw; simp [parseArgs, parseArgsLoop, hv, hw, hlow]
  · intro v hv hval; simp [parseArgs, parseArgsLoop, hv, hval]

/-- C7 witness: the case-insensitivity conjunct applied at `"FALSE"` and
`"false"`, and the invalid-value conjunct applied at `"maybe"`. -/
theorem claim_C7_witness :
    parseArgs ["--answered", "FALSE"] = parseArgs ["--answered", "false"] ∧
    parseArgs ["--answered", "maybe"] =
      .error "--answered must be one of answered, unanswered, true, false, or any" :=
  ⟨claim_C7_answered_filter.2.2.2.1 "FALSE" "false" (by decide) (by decide) (by decide),
   claim_C7_answered_filter.2.2.2.2 "maybe" (by decide) (by decide)⟩

/-- C4: for each integer-valued flag, a value with no base-10 integer prefix
(JavaScript `Number.parseInt(v, 10)` is `NaN`) fails with
`<Flag> requires an integer value`; a value that does parse succeeds for
`--get`/`--comment`/`--list-comments`, while `--limit` additionally requires
the parsed integer to be positive. -/
theorem claim_C4_integer_flags :
    (∀ v : String, v ∉ FLAG_NAMES → jsParseInt10 v = none →
      parseArgs ["--limit", v] = .error "--limit requires an integer value" ∧
      parseArgs ["--get", v] = .error "--get requires an integer value" ∧
      parseArgs ["--comment", v] = .error "--comment requires an integer value" ∧
      parseArgs ["--list-comments", v] =
        .error "--list-comments requires an integer value") ∧
    (∀ (v : String) (n : Int), v ∉ FLAG_NAMES → jsParseInt10 v = some n →
      parseArgs ["--get", v] = .ok { action := some "get", number := some n } ∧
      parseArgs ["--comment", v] = .ok { action := some "comment", number := some n } ∧
      parseArgs ["--list-comments", v] =
        .ok { action := some "listComments", number := some n } ∧
      (n ≤ 0 → parseArgs ["--limit", v] = .error "--limit requires a positive integer") ∧
      (0 < n → parseArgs ["--limit", v] = .ok { limit := some n })) := by
  constructor
  · intro v hv hn
    refine ⟨?_, ?_, ?_, ?_⟩ <;>
      simp [parseArgs, parseArgsLoop, hv, parseInteger, hn, ensureSingleAction]
  · intro v n hv hn
    refine ⟨?_, ?_, ?_, fun hle => ?_, fun hpos => ?_⟩ <;>
      simp [parseArgs, parseArgsLoop, hv, parseInteger, hn, ensureSingleAction]
    · exact hle
    · omega

/-- C4 witness: `--limit abc` is non-numeric and rejected; `--limit 0` parses
to `0` and is rejected as non-positive; `--get 12` succeeds with `12`. -/
theorem claim_C4_witness :
    parseArgs ["--limit", "abc"] = .error "--limit requires an integer value" ∧
    parseArgs ["--limit", "0"] = .error "--limit requires a positive integer" ∧
    parseArgs ["--get", "12"] = .ok { action := some "get", number := some 12 } :=
  ⟨(claim_C4_integer_flags.1 "abc" (by decide) (by decide)).1,
   ((claim_C4_integer_flags.2 "0" 0 (by decide) (by decide)).2.2.2.1 (by decide)),
   (claim_C4_integer_flags.2 "12" 12 (by decide) (by decide)).1⟩

/-- C10 counterexample: the argument list `--get 1 --get x` repeats the one
action flag `--get` with no other action present, yet parsing fails (on the
integer check of the second occurrence), refuting the claim's unconditional
"parsing succeeds". -/
theorem claim_C10_counterexample :
    parseArgs ["--get", "1", "--get", "x"] =
      .error "--get requires an integer value" ∧
    ¬ ∃ r, parseArgs ["--get", "1", "--get", "x"] = .ok r := by
  refine ⟨by decide, ?_⟩
  rintro ⟨r, hr⟩
  rw [show parseArgs ["--get", "1", "--get", "x"] =
      .error "--get requires an integer value" by decide] at hr
  cases hr

/-- C10 (amended): repeating the same action flag never triggers the
multiple-actions error (`ensureSingleAction` accepts a repeat of the current
action), and when every occurrence is otherwise well-formed parsing succeeds
with the last occurrence's value winning — for `--get`'s number as for
repeated value flags generally. -/
theorem claim_C10_repeat_action (a : String) :
    ensureSingleAction (some a) a = .ok a ∧
    parseArgs ["--get", "1", "--get", "2"] =
      .ok { action := some "get", number := some 2 } ∧
    parseArgs ["--list", "--list"] = .ok { action := some "list" } ∧
    (∀ (v1 v2 : String) (n1 n2 : Int), v1 ∉ FLAG_NAMES → v2 ∉ FLAG_NAMES →
      jsParseInt10 v1 = some n1 → jsParseInt10 v2 = some n2 →
      parseArgs ["--get", v1, "--get", v2] =
        .ok { action := some "get", number := some n2 }) ∧
    (∀ v1 v2 : String, v1 ∉ FLAG_NAMES → v2 ∉ FLAG_NAMES →
      parseArgs ["--title", v1, "--title", v2] = .ok { title := some v2 }) := by
  refine ⟨by simp [ensureSingleAction], by decide, by decide, ?_, ?_⟩
  · intro v1 v2 n1 n2 h1 h2 hn1 hn2
    simp [parseArgs, parseArgsLoop, h1, h2, parseInteger, hn1, hn2,
      ensureSingleAction]
  · intro v1 v2 h1 h2
    simp [parseArgs, parseArgsLoop, h1, h2]

/-- C10 witness: the amended statement applied at action `"comment"` and at
concrete repeated flags. -/
theorem claim_C10_witness :
    ensureSingleAction (some "comment") "comment" = .ok "comment" ∧
    parseArgs ["--title", "A", "--title", "B"] = .ok { title := some "B" } :=
  ⟨(claim_C10_repeat_action "comment").1,
   (claim_C10_repeat_action "comment").2.2.2.2 "A" "B" (by decide) (by decide)⟩

/-! ## Parser invariants (for the action-exclusivity and `--state` claims) -/

/-- The action name that a flag token selects (the `ensureSingleAction`
argument of its `parseArgs` case), `none` for non-action tokens. -/
def actionOfFlag : String → Option String
  | "--list" => some "list"
  | "--list-categories" => some "listCategories"
  | "--get" => some "get"
  | "--create" => some "create"
  | "--comment" => some "comment"
  | "--list-comments" => some "listComments"
  | _ => none

/-- The `states` list, when present, is duplicate-free and holds only the
uppercase tokens `"OPEN"`/`"CLOSED"`. -/
def statesOK (o : Options) : Prop :=
  ∀ ss, o.states = some ss → ss.Nodup ∧ ∀ x ∈ ss, x = "OPEN" ∨ x = "CLOSED"

/-- Invariant relating a successful run of the parse loop on `l` from `opts`
to its result `r`: an already-chosen action persists; any action flag
occurring in `l` determines the final action; `statesOK` is preserved. -/
def ParseInv (l : List String) (opts r : Options) : Prop :=
  (∀ a, opts.action = some a → r.action = some a) ∧
  (∀ fl ∈ l, ∀ b, actionOfFlag fl = some b → r.action = some b) ∧
  (statesOK opts → statesOK r)

theorem actionOfFlag_mem {fl b : String} (h : actionOfFlag fl = some b) :
    fl ∈ FLAG_NAMES := by
  unfold actionOfFlag at h
  split at h <;> simp_all [FLAG_NAMES]

theorem ensureSingleAction_ok {x : Option String} {n a : String}
    (h : ensureSingleAction x n = .ok a) :
    a = n ∧ (x = none ∨ x = some n) := by
  cases x with
  | none =>
    simp [ensureSingleAction] at h
    exact ⟨h.symm, Or.inl rfl⟩
  | some e =>
    by_cases he : e = n
    · subst he
      simp [ensureSingleAction] at h
      exact ⟨h.symm, Or.inr rfl⟩
    · simp [ensureSingleAction, he] at h

theorem ParseInv_step_value {arg v : String} {rest' : List String}
    {opts opts' r : Options}
    (harg : actionOfFlag arg = none) (hv : v ∉ FLAG_NAMES)
    (hact : opts'.action = opts.action)
    (hstOK : statesOK opts → statesOK opts')
    (h : ParseInv rest' opts' r) : ParseInv (arg :: v :: rest') opts r := by
  obtain ⟨h1, h2, h3⟩ := h
  refine ⟨fun a ha => h1 a (by rw [hact]; exact ha), ?_, fun hs => h3 (hstOK hs)⟩
  intro fl hfl b hb
  rcases List.mem_cons.mp hfl with rfl | hfl2
  · rw [harg] at hb; cases hb
  · rcases List.mem_cons.mp hfl2 with rfl | hfl3
    · exact absurd (actionOfFlag_mem hb) hv
    · exact h2 fl hfl3 b hb

theorem ParseInv_step_action {arg : String} {rest : List String}
    {opts opts' r : Options} {b : String}
    (harg : actionOfFlag arg = some b) (hact' : opts'.action = some b)
    (hopts : opts.action = none ∨ opts.action = some b)
    (hstOK : statesOK opts → statesOK opts')
    (h : ParseInv rest opts' r) : ParseInv (arg :: rest) opts r := by
  obtain ⟨h1, h2, h3⟩ := h
  have hr : r.action = some b := h1 b hact'
  refine ⟨?_, ?_, fun hs => h3 (hstOK hs)⟩
  · intro a ha
    rcases hopts with h0 | h0
    · rw [h0] at ha; cases ha
    · rw [h0] at ha
      injection ha with ha'
      rw [← ha']; exact hr
  · intro fl hfl b' hb'
    rcases List.mem_cons.mp hfl with rfl | hfl2
    · rw [harg] at hb'
      injection hb' with hbb
      rw [← hbb]; exact hr
    · exact h2 fl hfl2 b' hb'

theorem ParseInv_step_actionV {arg v : String} {rest' : List String}
    {opts opts' r : Options} {b : String}
    (harg : actionOfFlag arg = some b) (hv : v ∉ FLAG_NAMES)
    (hact' : opts'.action = some b)
    (hopts : opts.action = none ∨ opts.action = some b)
    (hstOK : statesOK opts → statesOK opts')
    (h : ParseInv rest' opts' r) : ParseInv (arg :: v :: rest') opts r := by
  obtain ⟨h1, h2, h3⟩ := h
  have hr : r.action = some b := h1 b hact'
  refine ⟨?_, ?_, fun hs => h3 (hstOK hs)⟩
  · intro a ha
    rcases hopts with h0 | h0
    · rw [h0] at ha; cases ha
    · rw [h0] at ha
      injection ha with ha'
      rw [← ha']; exact hr
  · intro fl hfl b' hb'
    rcases List.mem_cons.mp hfl with rfl | hfl2
    · rw [harg] at hb'
      injection hb' with hbb
      rw [← hbb]; exact hr
    · rcases List.mem_cons.mp hfl2 with rfl | hfl3
      · exact absurd (actionOfFlag_mem hb') hv
      · exact h2 fl hfl3 b' hb'

/-- Every successful run of the parse loop satisfies `ParseInv`. -/
theorem parseArgsLoop_ok_inv :
    ∀ (l : List String) (opts r : Options),
      parseArgsLoop l opts = .ok r → ParseInv l opts r
  | [], opts, r, h => by
    simp [parseArgsLoop] at h
    subst h
    exact ⟨fun a ha => ha, fun fl hfl => absurd hfl (by simp), fun hs => hs⟩
  | arg :: rest, opts, r, h => by
    rw [parseArgsLoop.eq_def] at h
    by_cases hTok : arg = "--token"
    · subst hTok
      cases rest with
      | nil => simp at h
      | cons v rest' =>
        by_cases hv : v ∈ FLAG_NAMES <;> simp [hv] at h
        refine ParseInv_step_value (by decide) hv ?_ ?_
          (parseArgsLoop_ok_inv rest' _ r h)
        · rfl
        · exact fun hs => hs
    by_cases hOwn : arg = "--owner"
    · subst hOwn
      cases rest with
      | nil => simp [hTok] at h
      | cons v rest' =>
        by_cases hv : v ∈ FLAG_NAMES <;> simp [hTok, hv] at h
        refine ParseInv_step_value (by decide) hv ?_ ?_
          (parseArgsLoop_ok_inv rest' _ r h)
        · rfl
        · exact fun hs => hs
    by_cases hRepo : arg = "--repo"
    · subst hRepo
      cases rest with
      | nil => simp [hTok, hOwn] at h
      | cons v rest' =>
        by_cases hv : v ∈ FLAG_NAMES <;> simp [hTok, hOwn, hv] at h
        refine ParseInv_step_value (by decide) hv ?_ ?_
          (parseArgsLoop_ok_inv rest' _ r h)
        · rfl
        · exact fun hs => hs
    by_cases hList : arg = "--list"
    · subst hList
      cases he : ensureSingleAction opts.action "list" with
      | error e => simp [hTok, hOwn, hRepo, he] at h
      | ok a =>
        simp [hTok, hOwn, hRepo, he] at h
        obtain ⟨rfl, hopts⟩ := ensureSingleAction_ok he
        refine ParseInv_step_action (by decide) ?_ hopts ?_
          (parseArgsLoop_ok_inv rest _ r h)
        · rfl
        · exact fun hs => hs
    by_cases hLC : arg = "--list-categories"
    · subst hLC
      cases he : ensureSingleAction opts.action "listCategories" with
      | error e => simp [hTok, hOwn, hRepo, hList, he] at h
      | ok a =>
        simp [hTok, hOwn, hRepo, hList, he] at h
        obtain ⟨rfl, hopts⟩ := ensureSingleAction_ok he
        refine ParseInv_step_action (by decide) ?_ hopts ?_
          (parseArgsLoop_ok_inv rest _ r h)
        · rfl
        · exact fun hs => hs
    by_cases hLim : arg = "--limit"
    · subst hLim
      cases rest with
      | nil => simp [hTok, hOwn, hRepo, hList, hLC] at h
      | cons v rest' =>
        by_cases hv : v ∈ FLAG_NAMES <;> simp [hTok, hOwn, hRepo, hList, hLC, hv] at h
        cases hpi : parseInteger v "--limit" with
        | error e => simp [hpi] at h
        | ok n =>
          by_cases hn : n ≤ 0 <;> simp [hpi, hn] at h
          refine ParseInv_step_value (by decide) hv ?_ ?_
            (parseArgsLoop_ok_inv rest' _ r h)
          · rfl
          · exact fun hs => hs
    by_cases hGet : arg = "--get"
    · subst hGet
      cases he : ensureSingleAction opts.action "get" with
      | error e => simp [hTok, hOwn, hRepo, hList, hLC, hLim, he] at h
      | ok a =>
        cases rest with
        | nil => simp [hTok, hOwn, hRepo, hList, hLC, hLim, he] at h
        | cons v rest' =>
          by_cases hv : v ∈ FLAG_NAMES <;>
            simp [hTok, hOwn, hRepo, hList, hLC, hLim, he, hv] at h
          cases hpi : parseInteger v "--get" with
          | error e => simp [hpi] at h
          | ok n =>
            simp [hpi] at h
            obtain ⟨rfl, hopts⟩ := ensureSingleAction_ok he
            refine ParseInv_step_actionV (by decide) hv ?_ hopts ?_
              (parseArgsLoop_ok_inv rest' _ r h)
            · rfl
            · exact fun hs => hs
    by_cases hCre : arg = "--create"
    · subst hCre
      cases he : ensureSingleAction opts.action "create" with
      | error e => simp [hTok, hOwn, hRepo, hList, hLC, hLim, hGet, he] at h
      | ok a =>
        simp [hTok, hOwn, hRepo, hList, hLC, hLim, hGet, he] at h
        obtain ⟨rfl, hopts⟩ := ensureSingleAction_ok he
        refine ParseInv_step_action (by decide) ?_ hopts ?_
          (parseArgsLoop_ok_inv rest _ r h)
        · rfl
        · exact fun hs => hs
    by_cases hCom : arg = "--comment"
    · subst hCom
      cases he : ensureSingleAction opts.action "comment" with
      | error e => simp [hTok, hOwn, hRepo, hList, hLC, hLim, hGet, hCre, he] at h
      | ok a =>
        cases rest with
        | nil => simp [hTok, hOwn, hRepo, hList, hLC, hLim, hGet, hCre, he] at h
        | cons v rest' =>
          by_cases hv : v ∈ FLAG_NAMES <;>
            simp [hTok, hOwn, hRepo, hList, hLC, hLim, hGet, hCre, he, hv] at h
          cases hpi : parseInteger v "--comment" with
          | error e => simp [hpi] at h
          | ok n =>
            simp [hpi] at h
            obtain ⟨rfl, hopts⟩ := ensureSingleAction_ok he
            refine ParseInv_step_actionV (by decide) hv ?_ hopts ?_
              (parseArgsLoop_ok_inv rest' _ r h)
            · rfl
            · exact fun hs => hs
    by_cases hLCom : arg = "--list-comments"
    · subst hLCom
      cases he : ensureSingleAction opts.action "listComments" with
      | error e =>
        simp [hTok, hOwn, hRepo, hList, hLC, hLim, hGet, hCre, hCom, he] at h
      | ok a =>
        cases rest with
        | nil =>
          simp [hTok, hOwn, hRepo, hList, hLC, hLim, hGet, hCre, hCom, he] at h
        | cons v rest' =>
          by_cases hv : v ∈ FLAG_NAMES <;>
            simp [hTok, hOwn, hRepo, hList, hLC, hLim, hGet, hCre, hCom, he, hv] at h
          cases hpi : parseInteger v "--list-comments" with
          | error e => simp [hpi] at h
          | ok n =>
            simp [hpi] at h
            obtain ⟨rfl, hopts⟩ := ensureSingleAction_ok he
            refine ParseInv_step_actionV (by decide) hv ?_ hopts ?_
              (parseArgsLoop_ok_inv rest' _ r h)
            · rfl
            · exact fun hs => hs
    by_cases hTit : arg = "--title"
    · subst hTit
      cases rest with
      | nil => simp [hTok, hOwn, hRepo, hList, hLC, hLim, hGet, hCre, hCom, hLCom] at h
      | cons v rest' =>
        by_cases hv : v ∈ FLAG_NAMES <;>
          simp [hTok, hOwn, hRepo, hList, hLC, hLim, hGet, hCre, hCom, hLCom, hv] at h
        refine ParseInv_step_value (by decide) hv ?_ ?_
          (parseArgsLoop_ok_inv rest' _ r h)
        · rfl
        · exact fun hs => hs
    by_cases hBody : arg = "--body"
    · subst hBody
      cases rest with
      | nil =>
        simp [hTok, hOwn, hRepo, hList, hLC, hLim, hGet, hCre, hCom, hLCom, hTit] at h
      | cons v rest' =>
        by_cases hv : v ∈ FLAG_NAMES <;>
          simp [hTok, hOwn, hRepo, hList, hLC, hLim, hGet, hCre, hCom, hLCom, hTit,
            hv] at h
        refine ParseInv_step_value (by decide) hv ?_ ?_
          (parseArgsLoop_ok_inv rest' _ r h)
        · rfl
        · exact fun hs => hs
    by_cases hCat : arg = "--category-id"
    · subst hCat
      cases rest with
      | nil =>
        simp [hTok, hOwn, hRepo, hList, hLC, hLim, hGet, hCre, hCom, hLCom, hTit,
          hBody] at h
      | cons v rest' =>
        by_cases hv : v ∈ FLAG_NAMES <;>
          simp [hTok, hOwn, hRepo, hList, hLC, hLim, hGet, hCre, hCom, hLCom, hTit,
            hBody, hv] at h
        refine ParseInv_step_value (by decide) hv ?_ ?_
          (parseArgsLoop_ok_inv rest' _ r h)
        · rfl
        · exact fun hs => hs
    by_cases hRep : arg = "--reply-to"
    · subst hRep
      cases rest with
      | nil =>
        simp [hTok, hOwn, hRepo, hList, hLC, hLim, hGet, hCre, hCom, hLCom, hTit,
          hBody, hCat] at h
      | cons v rest' =>
        by_cases hv : v ∈ FLAG_NAMES <;>
          simp [hTok, hOwn, hRepo, hList, hLC, hLim, hGet, hCre, hCom, hLCom, hTit,
            hBody, hCat, hv] at h
        refine ParseInv_step_value (by decide) hv ?_ ?_
          (parseArgsLoop_ok_inv rest' _ r h)
        · rfl
        · exact fun hs => hs
    by_cases hAns : arg = "--answered"
    · subst hAns
      cases rest with
      | nil =>
        simp [hTok, hOwn, hRepo, hList, hLC, hLim, hGet, hCre, hCom, hLCom, hTit,
          hBody, hCat, hRep] at h
      | cons v rest' =>
        by_cases hv : v ∈ FLAG_NAMES <;>
          simp [hTok, hOwn, hRepo, hList, hLC, hLim, hGet, hCre, hCom, hLCom, hTit,
            hBody, hCat, hRep, hv] at h
        by_cases hval : jsToLower v ∈ answeredValues <;> simp [hval] at h
        refine ParseInv_step_value (by decide) hv ?_ ?_
          (parseArgsLoop_ok_inv rest' _ r h)
        · rfl
        · exact fun hs => hs
    by_cases hSt : arg = "--state"
    · subst hSt
      cases rest with
      | nil =>
        simp [hTok, hOwn, hRepo, hList, hLC, hLim, hGet, hCre, hCom, hLCom, hTit,
          hBody, hCat, hRep, hAns] at h
      | cons v rest' =>
        by_cases hv : v ∈ FLAG_NAMES <;>
          simp [hTok, hOwn, hRepo, hList, hLC, hLim, hGet, hCre, hCom, hLCom, hTit,
            hBody, hCat, hRep, hAns, hv] at h
        by_cases hup : jsToUpper v = "OPEN" ∨ jsToUpper v = "CLOSED" <;>
          simp [hup] at h
        refine ParseInv_step_value (by decide) hv ?_ ?_
          (parseArgsLoop_ok_inv rest' _ r h)
        · rfl
        intro hs ss hss
        have hss2 := Option.some.inj hss
        subst hss2
        split
        next hc =>
          cases hos : opts.states with
          | none => simp
          | some ss0 => simpa [hos] using hs ss0 hos
        next hc =>
          cases hos : opts.states with
          | none => simpa using hup
          | some ss0 =>
            rw [hos] at hc
            simp only [Option.getD_some] at hc ⊢
            obtain ⟨nd, hmem⟩ := hs ss0 hos
            have hnotmem : jsToUpper v ∉ ss0 := by simpa using hc
            refine ⟨?_, ?_⟩
            · exact nd.append (List.nodup_singleton _)
                (fun x hx hx' => by
                  rcases List.mem_singleton.mp hx' with rfl
                  exact hnotmem hx)
            · intro x hx
              rcases List.mem_append.mp hx with hx0 | hx1
              · exact hmem x hx0
              · rcases List.mem_singleton.mp hx1 with rfl
                exact hup
    by_cases hFmt : arg = "--format"
    · subst hFmt
      cases rest with
      | nil =>
        simp [hTok, hOwn, hRepo, hList, hLC, hLim, hGet, hCre, hCom, hLCom, hTit,
          hBody, hCat, hRep, hAns, hSt] at h
      | cons v rest' =>
        by_cases hv : v ∈ FLAG_NAMES <;>
          simp [hTok, hOwn, hRepo, hList, hLC, hLim, hGet, hCre, hCom, hLCom, hTit,
            hBody, hCat, hRep, hAns, hSt, hv] at h
        by_cases hfv : jsToLower v = "json" ∨ jsToLower v = "text" <;>
          simp [hfv] at h
        refine ParseInv_step_value (by decide) hv ?_ ?_
          (parseArgsLoop_ok_inv rest' _ r h)
        · rfl
        · exact fun hs => hs
    simp [hTok, hOwn, hRepo, hList, hLC, hLim, hGet, hCre, hCom, hLCom, hTit,
      hBody, hCat, hRep, hAns, hSt, hFmt] at h

/-- C3 counterexample: `["--list", "oops", "--get", "1"]` contains the two
distinct action flags `--list` and `--get`, and parsing does fail — but with
`Unknown argument: oops` (the unrelated token is rejected first), not with a
message naming the two actions. -/
theorem claim_C3_counterexample :
    parseArgs ["--list", "oops", "--get", "1"] = .error "Unknown argument: oops" ∧
    "Unknown argument: oops" ≠
      "Multiple actions specified (list and get). Please choose one." ∧
    "Unknown argument: oops" ≠
      "Multiple actions specified (get and list). Please choose one." :=
  ⟨by decide, by decide, by decide⟩

/-- C3 (amended): an argument list containing two distinct action flags never
parses successfully, so no handler is dispatched and no network call is made;
and whenever the parser reaches a second, different action flag, the error
message names both actions. -/
theorem claim_C3_action_exclusive :
    (∀ (args : List String) (fa fb ba bb : String),
      fa ∈ args → fb ∈ args → actionOfFlag fa = some ba →
      actionOfFlag fb = some bb → ba ≠ bb →
      (∀ r, parseArgs args ≠ .ok r) ∧ dispatchedAction args = none) ∧
    (∀ (opts : Options) (a fl b : String) (rest : List String),
      actionOfFlag fl = some b → opts.action = some a → a ≠ b →
      parseArgsLoop (fl :: rest) opts =
        .error ("Multiple actions specified (" ++ a ++ " and " ++ b ++
          "). Please choose one.")) := by
  constructor
  · intro args fa fb ba bb hfa hfb hba hbb hne
    have hfail : ∀ r, parseArgs args ≠ .ok r := by
      intro r hr
      obtain ⟨-, h2, -⟩ := parseArgsLoop_ok_inv args {} r hr
      have e1 := h2 fa hfa ba hba
      have e2 := h2 fb hfb bb hbb
      rw [e1] at e2
      exact hne (Option.some.inj e2)
    refine ⟨hfail, ?_⟩
    cases hp : parseArgs args with
    | error e => simp [dispatchedAction, hp]
    | ok o => exact absurd hp (hfail o)
  · intro opts a fl b rest hfl hact hab
    unfold actionOfFlag at hfl
    split at hfl
    all_goals try exact Option.noConfusion hfl
    all_goals
      injection hfl with hb
      subst hb
      rw [parseArgsLoop.eq_def]
      simp [ensureSingleAction, hact, hab]

/-- C3 witness: the amended statement at `["--list", "--get", "1"]` (parse
failure and no dispatch) and at a loop state that already chose `list` when
`--get` arrives (message naming both actions). -/
theorem claim_C3_witness :
    parseArgs ["--list", "--get", "1"] ≠ .ok { action := some "get" } ∧
    dispatchedAction ["--list", "--get", "1"] = none ∧
    parseArgsLoop ["--get", "1"] { action := some "list" } =
      .error "Multiple actions specified (list and get). Please choose one." :=
  ⟨(claim_C3_action_exclusive.1 ["--list", "--get", "1"] "--list" "--get"
      "list" "get" (by decide) (by decide) (by decide) (by decide)
      (by decide)).1 { action := some "get" },
   (claim_C3_action_exclusive.1 ["--list", "--get", "1"] "--list" "--get"
      "list" "get" (by decide) (by decide) (by decide) (by decide)
      (by decide)).2,
   claim_C3_action_exclusive.2 { action := some "list" } "list" "--get" "get"
     ["1"] (by decide) rfl (by decide)⟩

/-- C8: `--state` accepts exactly `open|closed` case-insensitively, may be
repeated, and is collected into an ordered duplicate-free list of uppercase
tokens; `--state open --state open` parses identically to `--state open`,
and a non-empty `states` list is passed through to the query variables. -/
theorem claim_C8_state_flag :
    (parseArgs ["--state", "open", "--state", "open"] =
        parseArgs ["--state", "open"] ∧
     parseArgs ["--state", "open"] = .ok { states := some ["OPEN"] } ∧
     (buildListVariables { states := some ["OPEN"] }).states = some ["OPEN"]) ∧
    (∀ v : String, v ∉ FLAG_NAMES →
      (jsToUpper v = "OPEN" ∨ jsToUpper v = "CLOSED") →
      parseArgs ["--state", v] = .ok { states := some [jsToUpper v] }) ∧
    (∀ v : String, v ∉ FLAG_NAMES →
      ¬(jsToUpper v = "OPEN" ∨ jsToUpper v = "CLOSED") →
      parseArgs ["--state", v] = .error "--state must be open or closed") ∧
    (∀ (args : List String) (r : Options), parseArgs args = .ok r →
      ∀ l, r.states = some l →
        l.Nodup ∧ ∀ x ∈ l, x = "OPEN" ∨ x = "CLOSED") ∧
    (∀ (o : Options) (l : List String), o.states = some l → l ≠ [] →
      (buildListVariables o).states = some l) := by
  refine ⟨⟨by decide, by decide, by decide⟩, ?_, ?_, ?_, ?_⟩
  · intro v hv hup; simp [parseArgs, parseArgsLoop, hv, hup]
  · intro v hv hup; simp [parseArgs, parseArgsLoop, hv, hup]
  · intro args r hr l hl
    exact (parseArgsLoop_ok_inv args {} r hr).2.2 (fun ss hss => nomatch hss) l hl
  · intro o l hol hl
    simp [buildListVariables, hol, hl]

/-- C8 witness: case-insensitive acceptance at `"Closed"`, the uniqueness
invariant at a successful two-state parse, and variable passthrough at a
concrete non-empty list. -/
theorem claim_C8_witness :
    parseArgs ["--state", "Closed"] = .ok { states := some ["CLOSED"] } ∧
    (buildListVariables { states := some ["OPEN", "CLOSED"] }).states =
      some ["OPEN", "CLOSED"] :=
  ⟨claim_C8_state_flag.2.1 "Closed" (by decide) (by decide),
   claim_C8_state_flag.2.2.2.2 { states := some ["OPEN", "CLOSED"] }
     ["OPEN", "CLOSED"] rfl (by decide)⟩

/-! ## Pagination of `handleListComments` -/

/-- All comment nodes of a sequence of response pages, in order. -/
def flattenComments : List DiscussionWithComments → List CommentNode
  | [] => []
  | d :: rest => d.comments.nodes ++ flattenComments rest

/-- A response sequence as a real cursor-paginated endpoint serves it: at
least one page, every page before the last announces a next page, and the
last page does not. -/
def WellFormed : List DiscussionWithComments → Prop
  | [] => False
  | [d] => d.comments.pageInfo.hasNextPage = false
  | d :: rest => d.comments.pageInfo.hasNextPage = true ∧ WellFormed rest

/-- Behaviour of the pagination loop under a positive limit `l` on a
well-formed response sequence, starting from any accumulator still below the
limit: it returns the accumulated-and-truncated prefix of all available
comments, and every page request is issued while the accumulated count is
still below the limit. -/
theorem listCommentsLoop_limit_spec (l : Int) (hl : 0 < l) :
    ∀ (rs : List DiscussionWithComments) (acc : List CommentNode)
      (summ : Option ListCommentsSummary),
      WellFormed rs → acc.length < l.toNat →
      ∃ s n, listCommentsLoop (some l) (rs.map some) acc summ =
          .ok (s, (acc ++ flattenComments rs).take l.toNat, n) ∧
        1 ≤ n ∧ n ≤ rs.length ∧
        (acc ++ flattenComments (rs.take (n - 1))).length < l.toNat ∧
        (l.toNat ≤ (acc ++ flattenComments (rs.take n)).length ∨ n = rs.length)
  | [], _, _, hwf, _ => by simp [WellFormed] at hwf
  | [d], acc, summ, hwf, hacc => by
    have hnext : d.comments.pageInfo.hasNextPage = false := hwf
    by_cases hlim : 0 < l ∧ l ≤ ((acc ++ d.comments.nodes).length : Int)
    · refine ⟨summ.getD { id := d.id, number := d.number, title := d.title, url := d.url },
        1, ?_, le_refl 1, le_refl 1, by simpa [flattenComments] using hacc, ?_⟩
      · simp only [List.map_cons, List.map_nil, listCommentsLoop]
        rw [if_pos hlim]
        simp [flattenComments]
      · left
        have h2 := hlim.2
        rw [show [d].take 1 = [d] from rfl]
        simp only [flattenComments, List.append_nil, List.length_append] at h2 ⊢
        omega
    · have hlt : (acc ++ d.comments.nodes).length < l.toNat := by
        rcases not_and_or.mp hlim with h | h
        · exact absurd hl h
        · have hgt := lt_of_not_le h
          omega
      refine ⟨summ.getD { id := d.id, number := d.number, title := d.title, url := d.url },
        1, ?_, le_refl 1, le_refl 1, by simpa [flattenComments] using hacc, Or.inr rfl⟩
      have htake : (acc ++ flattenComments [d]).take l.toNat =
          acc ++ flattenComments [d] := by
        refine List.take_of_length_le ?_
        simp only [flattenComments, List.append_nil, List.length_append] at hlt ⊢
        omega
      rw [htake]
      simp only [List.map_cons, List.map_nil, listCommentsLoop]
      rw [if_neg hlim, hnext]
      simp [flattenComments]
  | d :: e :: rest, acc, summ, hwf, hacc => by
    have hnext : d.comments.pageInfo.hasNextPage = true := hwf.1
    have hwf' : WellFormed (e :: rest) := hwf.2
    by_cases hlim : 0 < l ∧ l ≤ ((acc ++ d.comments.nodes).length : Int)
    · have h2 := hlim.2
      have hle : l.toNat ≤ (acc ++ d.comments.nodes).length := by omega
      refine ⟨summ.getD { id := d.id, number := d.number, title := d.title, url := d.url },
        1, ?_, le_refl 1, by simp, by simpa [flattenComments] using hacc, ?_⟩
      · have hflat : acc ++ flattenComments (d :: e :: rest) =
            (acc ++ d.comments.nodes) ++ flattenComments (e :: rest) := by
          simp [flattenComments, List.append_assoc]
        rw [hflat, List.take_append_of_le_length hle]
        simp only [List.map_cons, listCommentsLoop]
        rw [if_pos hlim]
      · left
        rw [show (d :: e :: rest).take 1 = [d] from rfl]
        simp only [flattenComments, List.append_nil, List.length_append] at h2 ⊢
        omega
    · have hlt : (acc ++ d.comments.nodes).length < l.toNat := by
        rcases not_and_or.mp hlim with h | h
        · exact absurd hl h
        · have hgt := lt_of_not_le h
          omega
      obtain ⟨s, n, heq, h1, h2, h3, h4⟩ :=
        listCommentsLoop_limit_spec l hl (e :: rest) (acc ++ d.comments.nodes)
          (some (summ.getD { id := d.id, number := d.number, title := d.title, url := d.url }))
          hwf' hlt
      obtain ⟨m, rfl⟩ : ∃ m, n = m + 1 := ⟨n - 1, by omega⟩
      refine ⟨s, m + 2, ?_, by omega, ?_, ?_, ?_⟩
      · have hflat : acc ++ flattenComments (d :: e :: rest) =
            (acc ++ d.comments.nodes) ++ flattenComments (e :: rest) := by
          simp [flattenComments, List.append_assoc]
        rw [hflat]
        have hstep : listCommentsLoop (some l) ((d :: e :: rest).map some) acc summ =
            if 0 < l ∧ l ≤ (((acc ++ d.comments.nodes).length : Int)) then
              .ok (summ.getD { id := d.id, number := d.number, title := d.title, url := d.url },
                (acc ++ d.comments.nodes).take l.toNat, 1)
            else if d.comments.pageInfo.hasNextPage then
              match listCommentsLoop (some l) ((e :: rest).map some) (acc ++ d.comments.nodes) (some (summ.getD { id := d.id, number := d.number, title := d.title, url := d.url })) with
              | .error msg => .error msg
              | .ok (s0, cs, k) => .ok (s0, cs, k + 1)
            else
              .ok (summ.getD { id := d.id, number := d.number, title := d.title, url := d.url },
                acc ++ d.comments.nodes, 1) := rfl
        rw [hstep, if_neg hlim, hnext, if_pos rfl, heq]
      · simp only [List.length_cons] at h2 ⊢
        omega
      · rw [show m + 2 - 1 = m + 1 from rfl,
          show (d :: e :: rest).take (m + 1) = d :: (e :: rest).take m from rfl]
        simp only [Nat.add_sub_cancel] at h3
        simp only [flattenComments, List.length_append] at h3 ⊢
        omega
      · rcases h4 with h4 | h4
        · left
          rw [show (d :: e :: rest).take (m + 2) = d :: (e :: rest).take (m + 1) from rfl]
          simp only [flattenComments, List.length_append] at h4 ⊢
          omega
        · right
          simp only [List.length_cons] at h4 ⊢
          omega

/-- C1: for every well-formed sequence of API pages, `handleListComments`
with a positive `--limit l` accumulates comments page by page until either no
further page exists or the count reaches `l`, truncating to exactly `l`
(so with at least `l` comments available, exactly `l` are returned), and
every page request is issued while the accumulated count is below `l` (no
request after the limit is reached). -/
theorem claim_C1_list_comments_pagination (o : Options)
    (rs : List DiscussionWithComments) (l : Int)
    (hnum : o.number.isSome) (hlim : o.limit = some l) (hl : 0 < l)
    (hwf : WellFormed rs) :
    ∃ s n, handleListComments o (rs.map some) =
        .ok { discussion := s,
              comments := (flattenComments rs).take l.toNat,
              requests := n } ∧
      ((flattenComments rs).take l.toNat).length =
        min l.toNat (flattenComments rs).length ∧
      (l.toNat ≤ (flattenComments rs).length →
        ((flattenComments rs).take l.toNat).length = l.toNat) ∧
      1 ≤ n ∧ n ≤ rs.length ∧
      (flattenComments (rs.take (n - 1))).length < l.toNat ∧
      (l.toNat ≤ (flattenComments (rs.take n)).length ∨ n = rs.length) := by
  obtain ⟨s, n, heq, h1, h2, h3, h4⟩ :=
    listCommentsLoop_limit_spec l hl rs [] none hwf (by simp; omega)
  refine ⟨s, n, ?_, List.length_take l.toNat (flattenComments rs),
    fun hge => by rw [List.length_take]; omega,
    h1, h2, by simpa using h3, by simpa using h4⟩
  unfold handleListComments
  have hnone : o.number.isNone = false := by
    cases ho : o.number
    · rw [ho] at hnum; cases hnum
    · rfl
  rw [hnone, hlim]
  simp only [List.nil_append] at heq
  simp [heq]

/-- C1 witness: two pages of two comments each, `--limit 3`: exactly 3
comments are returned and exactly 2 requests were issued. -/
theorem claim_C1_witness :
    ∃ s n,
      handleListComments { number := some 7, limit := some 3 }
          ([⟨"D1", 7, "t", "u",
              ⟨[sampleComment 1, sampleComment 2], ⟨true, some "c1"⟩⟩⟩,
            ⟨"D1", 7, "t", "u",
              ⟨[sampleComment 3, sampleComment 4], ⟨false, none⟩⟩⟩].map some) =
        .ok { discussion := s,
              comments := (flattenComments
                [⟨"D1", 7, "t", "u",
                  ⟨[sampleComment 1, sampleComment 2], ⟨true, some "c1"⟩⟩⟩,
                 ⟨"D1", 7, "t", "u",
                  ⟨[sampleComment 3, sampleComment 4], ⟨false, none⟩⟩⟩]).take 3,
              requests := n } ∧
      n ≤ 2 :=
  match claim_C1_list_comments_pagination
      { number := some 7, limit := some 3 }
      [⟨"D1", 7, "t", "u", ⟨[sampleComment 1, sampleComment 2], ⟨true, some "c1"⟩⟩⟩,
       ⟨"D1", 7, "t", "u", ⟨[sampleComment 3, sampleComment 4], ⟨false, none⟩⟩⟩]
      3 rfl rfl (by decide) ⟨rfl, rfl⟩ with
  | ⟨s, n, heq, _, _, _, hn, _, _⟩ => ⟨s, n, heq, hn⟩

end Discussions
